import Mathlib

/-!
Shallow embedding of the catBurstBackend game server.

The embedding follows the full source variant (the file with win/lose
statistics, defuse handling and the websocket leaderboard hub); the reduced
variant `main2.go` is embedded separately for the functions where the two
variants disagree (`main2_` prefix).

Redis state is modelled explicitly:
* the per-user list at key `deck:<u>` is a `List CardKind` (an absent key and
  an empty list are indistinguishable through `LRange`/`RPush`, as in Redis);
* the hashes `win` and `lose` are association lists `List (String, Int)`
  (`HGetAll` iterates them, so the key set must be observable);
* the single field `defuse` of the hash `user:<u>` is a `String → Option Int`;
* the process-global websocket `clients` set and the messages written to the
  sockets are carried in the same state record (`clients`, `closed`, `sent`),
  so that a claim about what a game operation pushes to observers is a
  statement about the state it returns.

Randomness (`rand.Intn`, `rand.Shuffle`) is modelled by passing the random
choices in as parameters: a draw takes the chosen index, a shuffle takes the
stream `js` of Fisher-Yates choices, reduced mod the bound exactly as
`rand.Intn(i+1)` bounds them.
-/

/-- The four card type strings used by the source
("Cat", "Defuse", "Shuffle", "Exploding Kitten"). Decks only ever contain
these four strings, so they are modelled as an enumeration. -/
inductive CardKind where
  | cat
  | defuse
  | shuffle
  | explodingKitten
deriving DecidableEq, Repr

/-- The literal deck `["Cat", "Cat", "Defuse", "Shuffle", "Exploding Kitten"]`
written out in `initializeDeck` and `resetGame`. -/
def canonicalDeck : List CardKind :=
  [.cat, .cat, .defuse, .shuffle, .explodingKitten]

/-- The swap callback of Go's `rand.Shuffle`:
`deck[i], deck[j] = deck[j], deck[i]`. -/
def swapAt (l : List CardKind) (i j : Nat) : List CardKind :=
  (l.set i (l.getD j .cat)).set j (l.getD i .cat)

/-- The loop of Go's `rand.Shuffle`: `for i := n-1; i > 0; i-- ` it swaps
position `i` with `rand.Intn(i+1)`; the random stream `js` is reduced
`% (i+1)` to model `Intn`'s range. -/
def goShuffleAux (js : Nat → Nat) : Nat → List CardKind → List CardKind
  | 0, l => l
  | i + 1, l => goShuffleAux js i (swapAt l (i + 1) (js (i + 1) % (i + 2)))

/-- `rand.Shuffle(len(deck), swap)` as called by `initializeDeck` and
`resetGame`. -/
def goShuffle (js : Nat → Nat) (l : List CardKind) : List CardKind :=
  goShuffleAux js (l.length - 1) l

/-- A Redis hash with integer values, as an association list so that
`HGetAll` can iterate it. -/
abbrev Hash := List (String × Int)

/-- Redis `HGet`: the value at a key (first match), `none` when absent
(`redis.Nil`). -/
def hget : Hash → String → Option Int
  | [], _ => none
  | p :: t, k => if p.1 = k then some p.2 else hget t k

/-- Redis `HSet`: overwrite the value when the key is present, append the
pair otherwise. -/
def hset (h : Hash) (k : String) (v : Int) : Hash :=
  if h.any (fun p => p.1 == k) then
    h.map (fun p => if p.1 = k then (k, v) else p)
  else
    h ++ [(k, v)]

/-- Observer handles of the websocket hub (the keys of the Go `clients`
map). -/
abbrev Obs := Nat

/-- One leaderboard record `{username, win, lose}` from `fetchAllUserStats`. -/
abbrev StatsRecord := String × Int × Int

/-- The state the server reads and writes: the Redis keys used by the game
plus the process-global websocket hub (`clients`, plus the ghost observers
`closed` and `sent` recording what happened on the sockets). -/
structure GameState where
  deck : String → List CardKind
  win : Hash
  lose : Hash
  defuse : String → Option Int
  clients : List Obs
  closed : List Obs
  sent : List (Obs × List StatsRecord)

/-- Pointwise update of a function-modelled store at one key. -/
def upd {α : Type} (f : String → α) (k : String) (v : α) : String → α :=
  fun x => if x = k then v else f x

/-- `initializeDeck`: shuffles the canonical five cards and `RPush`es them
onto `deck:<userID>` (RPush appends to whatever is already there; the caller
only invokes it when the list is empty). -/
def initializeDeck (js : Nat → Nat) (userID : String) (s : GameState) :
    GameState :=
  { s with deck := upd s.deck userID (s.deck userID ++ goShuffle js canonicalDeck) }

/-- Result of `startGame`: the `resumed` flag distinguishes the
"Resuming game" response from the "Game started" response, `deck` is the
deck returned in the JSON body. -/
structure StartResult where
  resumed : Bool
  deck : List CardKind
deriving DecidableEq, Repr

/-- `startGame`: `LRange` the existing deck; when non-empty answer
"Resuming game" with it unchanged; otherwise `initializeDeck`, re-read the
new deck, and unconditionally `HSet win <u> 0` and `HSet lose <u> 0`. -/
def startGame (u : String) (js : Nat → Nat) (s : GameState) :
    GameState × StartResult :=
  let existingDeck := s.deck u
  if existingDeck.length > 0 then
    (s, ⟨true, existingDeck⟩)
  else
    let s1 := initializeDeck js u s
    let newDeck := s1.deck u
    let s2 := { s1 with win := hset s1.win u 0, lose := hset s1.lose u 0 }
    (s2, ⟨false, newDeck⟩)

/-- `updateUserStats`: read the counter from the `win` (resp. `lose`) hash,
treat `redis.Nil` as 0, add 1 and `HSet` it back. -/
def updateUserStats (username : String) (isWin : Bool) (s : GameState) :
    GameState :=
  if isWin then
    let winCount := (hget s.win username).getD 0
    { s with win := hset s.win username (winCount + 1) }
  else
    let loseCount := (hget s.lose username).getD 0
    { s with lose := hset s.lose username (loseCount + 1) }

/-- The six terminal classifications a `drawCard` request can end in
(identified by the distinct JSON messages the source writes). -/
inductive Outcome where
  | deckExhausted
  | catDrawn
  | defuseAcquired
  | deckReshuffled
  | defused
  | playerLost
deriving DecidableEq, Repr

/-- `resetGame`: shuffle a fresh canonical five-card deck, take its first 5
cards, `Del` the old `deck:<u>` list, `RPush` the new one, and
`HSet user:<u> defuse 0`. -/
def resetGame (username : String) (js : Nat → Nat) (s : GameState) :
    GameState :=
  let deck := (goShuffle js canonicalDeck).take 5
  { s with
      deck := upd s.deck username deck
      defuse := upd s.defuse username (some 0) }

/-- `handleDrawnCard`: the switch on the drawn card type. Exploding Kitten
with a positive `defuse` field consumes it (`HSet defuse 0`); with no charge
the player loses and `updateUserStats(u, false)` runs (the trailing
`HSet "defuse:"+u "false"` has an odd argument count, is rejected by Redis
and touches no state read anywhere, so it is not modelled). Defuse stores
`HSet user:<u> defuse 1`. Shuffle runs `resetGame`. The default case is the
Cat card. Note the lose branch never calls `resetGame` in this variant. -/
def handleDrawnCard (drawnCard : CardKind) (username : String)
    (js : Nat → Nat) (s : GameState) : GameState × Outcome :=
  match drawnCard with
  | .explodingKitten =>
      let defuseCount := (s.defuse username).getD 0
      if defuseCount > 0 then
        ({ s with defuse := upd s.defuse username (some 0) }, .defused)
      else
        (updateUserStats username false s, .playerLost)
  | .defuse =>
      ({ s with defuse := upd s.defuse username (some 1) }, .defuseAcquired)
  | .shuffle =>
      (resetGame username js s, .deckReshuffled)
  | .cat =>
      (s, .catDrawn)

/-- `drawCard`: `LRange` the deck; when empty, `updateUserStats(u, true)`
runs and the request answers "No cards left in the deck". Otherwise pick
`cardIndex := rand.Intn(len(deck))` (modelled as `i % deck.length`), read
the card there, `LRem deck:<u> 1 card` (remove the first occurrence of that
value), and dispatch to `handleDrawnCard`. -/
def drawCard (u : String) (i : Nat) (js : Nat → Nat) (s : GameState) :
    GameState × Outcome :=
  let deck := s.deck u
  if deck.length = 0 then
    (updateUserStats u true s, .deckExhausted)
  else
    let cardIndex := i % deck.length
    let drawnCard := deck.getD cardIndex .cat
    let s1 := { s with deck := upd s.deck u (deck.erase drawnCard) }
    handleDrawnCard drawnCard u js s1

/-- `fetchAllUserStats`: `HGetAll` both hashes, then iterate the `win`
entries only, defaulting a missing `lose` entry to 0. -/
def fetchAllUserStats (s : GameState) : List StatsRecord :=
  s.win.map (fun p => (p.1, p.2, (hget s.lose p.1).getD 0))

/-- The client loop of `broadcastLeaderboard`: `WriteJSON` the snapshot to
each registered connection; on error, `Close` the connection and `delete`
it from `clients`. `ok c` says whether the write to `c` succeeds. -/
def broadcastLoop (snapshot : List StatsRecord) (ok : Obs → Bool) :
    List Obs → List Obs × List Obs × List (Obs × List StatsRecord)
  | [] => ([], [], [])
  | c :: rest =>
      let r := broadcastLoop snapshot ok rest
      if ok c then
        (c :: r.1, r.2.1, (c, snapshot) :: r.2.2)
      else
        (r.1, c :: r.2.1, r.2.2)

/-- `broadcastLeaderboard`: fetch the snapshot and send it to every
registered client, dropping and closing the ones whose send fails. It
returns normally whatever `ok` is (errors are logged, never raised). -/
def broadcastLeaderboard (ok : Obs → Bool) (s : GameState) : GameState :=
  let snapshot := fetchAllUserStats s
  let r := broadcastLoop snapshot ok s.clients
  { s with
      clients := r.1
      closed := s.closed ++ r.2.1
      sent := s.sent ++ r.2.2 }

/-- `main2.go` variant of `resetGame`: writes the canonical deck back
without shuffling it and does not touch the defuse field. -/
def main2_resetGame (username : String) (s : GameState) : GameState :=
  { s with deck := upd s.deck username canonicalDeck }

/-- `main2.go` variant of `handleDrawnCard`: an Exploding Kitten always
loses (no defuse check, no stats update) but does run `resetGame`; Shuffle
resets; Defuse stores the flag; the default case is the Cat card. -/
def main2_handleDrawnCard (drawnCard : CardKind) (username : String)
    (s : GameState) : GameState × Outcome :=
  match drawnCard with
  | .explodingKitten => (main2_resetGame username s, .playerLost)
  | .defuse =>
      ({ s with defuse := upd s.defuse username (some 1) }, .defuseAcquired)
  | .shuffle => (main2_resetGame username s, .deckReshuffled)
  | .cat => (s, .catDrawn)

/-- `main2.go` variant of `drawCard`: an empty deck just answers
"No cards left in the deck" with no stats update. -/
def main2_drawCard (u : String) (i : Nat) (s : GameState) :
    GameState × Outcome :=
  let deck := s.deck u
  if deck.length = 0 then
    (s, .deckExhausted)
  else
    let cardIndex := i % deck.length
    let drawnCard := deck.getD cardIndex .cat
    let s1 := { s with deck := upd s.deck u (deck.erase drawnCard) }
    main2_handleDrawnCard drawnCard u s1

/-- A fixed stream of Fisher-Yates choices (every value 0), for concrete
scenarios. -/
def js0 : Nat → Nat := fun _ => 0

/-- The all-empty server state: no decks, empty hashes, no observers. -/
def emptyState : GameState :=
  { deck := fun _ => []
    win := []
    lose := []
    defuse := fun _ => none
    clients := []
    closed := []
    sent := [] }

/-- A deck store holding `l` for the user "alice" and nothing else. -/
def aliceDeck (l : List CardKind) : String → List CardKind :=
  fun u => if u = "alice" then l else []

/-- Scenario: "alice" has an exhausted (empty) deck and zeroed counters. -/
def sC1 : GameState :=
  { emptyState with win := [("alice", 0)], lose := [("alice", 0)] }

/-- Scenario: "alice" holds only the Exploding Kitten and no defuse charge. -/
def sC2 : GameState :=
  { emptyState with
      deck := aliceDeck [.explodingKitten]
      win := [("alice", 0)]
      lose := [("alice", 0)]
      defuse := fun _ => some 0 }

/-- Scenario: "alice" has two Defuse cards on top of the deck and no charge
banked yet. -/
def sC3 : GameState :=
  { emptyState with deck := aliceDeck [.defuse, .defuse, .cat] }

/-- Scenario: "alice" holds a banked defuse charge and draws the Exploding
Kitten. -/
def sC3b : GameState :=
  { emptyState with
      deck := aliceDeck [.explodingKitten]
      defuse := fun u => if u = "alice" then some 1 else none }

/-- Scenario: "alice" will draw the Exploding Kitten with a Cat card left
behind and no defuse charge. -/
def sC4 : GameState :=
  { emptyState with
      deck := aliceDeck [.explodingKitten, .cat]
      defuse := fun _ => some 0 }

/-- Scenario: "alice" has accumulated stats (3 wins, 1 loss) but her deck
has been drained to empty. -/
def sC5 : GameState :=
  { emptyState with win := [("alice", 3)], lose := [("alice", 1)] }

/-- Scenario: "alice" loses while observer `7` is registered and nothing has
been pushed yet. -/
def sC7 : GameState :=
  { emptyState with
      deck := aliceDeck [.explodingKitten]
      win := [("alice", 0)]
      lose := [("alice", 0)]
      defuse := fun _ => some 0
      clients := [7] }

/-- Scenario: the `lose` hash knows "bob" but the `win` hash does not. -/
def sC8 : GameState :=
  { emptyState with lose := [("bob", 1)] }

/-- Scenario: "carol" has 2 wins and 4 losses recorded. -/
def sC8w : GameState :=
  { emptyState with win := [("carol", 2)], lose := [("carol", 4)] }

/-- Scenario: three registered observers and one known player. -/
def sC9 : GameState :=
  { emptyState with win := [("alice", 1)], clients := [1, 2, 3] }

/-- Send-success predicate for the broadcast scenario: the write to
observer `2` fails, the others succeed. -/
def ok9 : Obs → Bool := fun o => !(o == 2)

/-- Scenario: "alice" draws from a deck with two Cat duplicates around an
Exploding Kitten. -/
def sC10 : GameState :=
  { emptyState with deck := aliceDeck [.cat, .explodingKitten, .cat] }

/-- The swaps performed by one `rand.Shuffle` run on the five-card deck
permute it, whatever the four bounded choices are. -/
theorem shuffle5_perm (a b c d : Nat) (ha : a < 5) (hb : b < 4) (hc : c < 3)
    (hd : d < 2) :
    (swapAt (swapAt (swapAt (swapAt canonicalDeck 4 a) 3 b) 2 c) 1 d).Perm
      canonicalDeck := by
  interval_cases a <;> interval_cases b <;> interval_cases c <;>
    interval_cases d <;> decide

/-- `rand.Shuffle` of the canonical deck returns a permutation of it for
every random stream. -/
theorem goShuffle_canonical_perm (js : Nat → Nat) :
    (goShuffle js canonicalDeck).Perm canonicalDeck := by
  show (swapAt (swapAt (swapAt (swapAt canonicalDeck 4 (js 4 % 5)) 3
      (js 3 % 4)) 2 (js 2 % 3)) 1 (js 1 % 2)).Perm canonicalDeck
  exact shuffle5_perm _ _ _ _ (Nat.mod_lt _ (by decide))
    (Nat.mod_lt _ (by decide)) (Nat.mod_lt _ (by decide))
    (Nat.mod_lt _ (by decide))

/-- The shuffled canonical deck always has five cards. -/
theorem goShuffle_canonical_length (js : Nat → Nat) :
    (goShuffle js canonicalDeck).length = 5 :=
  (goShuffle_canonical_perm js).length_eq

/-- `HGet` after the overwrite branch of `HSet` at the written key. -/
theorem hget_mapUpd (t : Hash) (k : String) (v : Int)
    (h : t.any (fun p => p.1 == k) = true) :
    hget (t.map (fun p => if p.1 = k then (k, v) else p)) k = some v := by
  induction t with
  | nil => simp at h
  | cons p t ih =>
      by_cases hp : p.1 = k
      · simp [hget, hp]
      · have ht : t.any (fun p => p.1 == k) = true := by
          simp only [List.any_cons, Bool.or_eq_true] at h
          rcases h with h1 | h1
          · exact absurd (by simpa using h1) hp
          · exact h1
        simp [hget, hp, ih ht]

/-- The overwrite branch of `HSet` leaves every other key alone. -/
theorem hget_mapUpd_ne (t : Hash) (k q : String) (v : Int) (hne : q ≠ k) :
    hget (t.map (fun p => if p.1 = k then (k, v) else p)) q = hget t q := by
  induction t with
  | nil => rfl
  | cons p t ih =>
      by_cases hp : p.1 = k
      · have h1 : ¬ (k = q) := fun hh => hne hh.symm
        have h2 : ¬ (p.1 = q) := by rw [hp]; exact h1
        simp [hget, hp, h1, h2, ih]
      · by_cases hq : p.1 = q
        · simp [hget, hp, hq, hne]
        · simp [hget, hp, hq, ih]

/-- A key that no entry matches reads as absent. -/
theorem hget_any_none (t : Hash) (k : String)
    (h : t.any (fun p => p.1 == k) = false) : hget t k = none := by
  induction t with
  | nil => rfl
  | cons p t ih =>
      simp only [List.any_cons, Bool.or_eq_false_iff] at h
      have hp : ¬ p.1 = k := by simpa using h.1
      simp [hget, hp, ih h.2]

/-- `HGet` after the append branch of `HSet` at the written key. -/
theorem hget_append_self (t : Hash) (k : String) (v : Int)
    (h : hget t k = none) : hget (t ++ [(k, v)]) k = some v := by
  induction t with
  | nil => simp [hget]
  | cons p t ih =>
      by_cases hp : p.1 = k
      · simp [hget, hp] at h
      · simp only [hget, hp, if_false] at h ⊢
        simp [ih h]

/-- The append branch of `HSet` leaves every other key alone. -/
theorem hget_append_ne (t : Hash) (k q : String) (v : Int) (hne : q ≠ k) :
    hget (t ++ [(k, v)]) q = hget t q := by
  induction t with
  | nil =>
      have h1 : ¬ (k = q) := fun hh => hne hh.symm
      simp [hget, h1]
  | cons p t ih =>
      by_cases hq : p.1 = q
      · simp [hget, hq]
      · simp [hget, hq, ih]

/-- Reading back the key an `HSet` just wrote gives the written value. -/
theorem hget_hset_self (h : Hash) (k : String) (v : Int) :
    hget (hset h k v) k = some v := by
  unfold hset
  by_cases hany : h.any (fun p => p.1 == k) = true
  · simp [hany, hget_mapUpd h k v hany]
  · simp only [Bool.not_eq_true] at hany
    simp only [hany, Bool.false_eq_true, if_false]
    exact hget_append_self h k v (hget_any_none h k hany)

/-- An `HSet` leaves the value of every other key unchanged. -/
theorem hget_hset_ne (h : Hash) (k q : String) (v : Int) (hne : q ≠ k) :
    hget (hset h k v) q = hget h q := by
  unfold hset
  by_cases hany : h.any (fun p => p.1 == k) = true
  · simp [hany, hget_mapUpd_ne h k q v hne]
  · simp only [Bool.not_eq_true] at hany
    simp only [hany, Bool.false_eq_true, if_false]
    exact hget_append_ne h k q v hne

/-- Reading the key a pointwise update wrote. -/
theorem upd_self {α : Type} (f : String → α) (k : String) (v : α) :
    upd f k v k = v := by
  simp [upd]

/-- A pointwise update leaves every other key unchanged. -/
theorem upd_ne {α : Type} (f : String → α) (k q : String) (v : α)
    (hne : q ≠ k) : upd f k v q = f q := by
  simp [upd, hne]

/-- Claim C1, counterexample: with an existing session whose deck is empty,
`drawCard` does answer the exhausted-deck message, but the losses counter is
left at 0 while the wins counter is incremented to 1 — the exhausted-deck
draw is scored as a win, not as a loss. -/
theorem emptyDraw_scored_as_win :
    (drawCard "alice" 0 js0 sC1).2 = Outcome.deckExhausted ∧
    hget (drawCard "alice" 0 js0 sC1).1.lose "alice" = some 0 ∧
    hget (drawCard "alice" 0 js0 sC1).1.win "alice" = some 1 := by
  decide

/-- Claim C1, amended: for every username with a session whose deck is
empty, `drawCard` produces the exhausted-deck outcome and increments that
username's wins counter by exactly 1, leaving the losses counter and every
deck untouched. -/
theorem drawCard_emptyDeck_increments_wins (s : GameState) (u : String)
    (i : Nat) (js : Nat → Nat) (h : s.deck u = []) :
    (drawCard u i js s).2 = Outcome.deckExhausted ∧
    hget (drawCard u i js s).1.win u = some ((hget s.win u).getD 0 + 1) ∧
    (drawCard u i js s).1.lose = s.lose ∧
    (drawCard u i js s).1.deck = s.deck := by
  simp only [drawCard, h, List.length_nil, if_true, updateUserStats,
    if_pos rfl]
  exact ⟨by simp, hget_hset_self _ _ _, by simp, by simp⟩

/-- Claim C1, witness: the amended statement evaluated on the concrete
exhausted-deck scenario. -/
theorem drawCard_emptyDeck_increments_wins_witness :
    sC1.deck "alice" = [] ∧
    (drawCard "alice" 0 js0 sC1).2 = Outcome.deckExhausted ∧
    hget (drawCard "alice" 0 js0 sC1).1.win "alice" =
      some ((hget sC1.win "alice").getD 0 + 1) :=
  ⟨rfl, (drawCard_emptyDeck_increments_wins sC1 "alice" 0 js0 rfl).1,
    (drawCard_emptyDeck_increments_wins sC1 "alice" 0 js0 rfl).2.1⟩

/-- Claim C2, counterexample: drawing the Exploding Kitten with no defuse
charge does yield the losing outcome and increments losses, but the deck is
left as the empty remainder after removing the kitten — it is not replaced
by a fresh five-card composition. -/
theorem kittenLoss_does_not_reset_deck :
    (drawCard "alice" 0 js0 sC2).2 = Outcome.playerLost ∧
    hget (drawCard "alice" 0 js0 sC2).1.lose "alice" = some 1 ∧
    hget (drawCard "alice" 0 js0 sC2).1.win "alice" = some 0 ∧
    (drawCard "alice" 0 js0 sC2).1.deck "alice" = [] := by
  decide

/-- Claim C2, amended: drawing an ExplodingKitten while the defuse charge is
0 yields the losing outcome, increments that username's losses counter by
exactly 1 and never changes the wins counter; the deck is left as the old
deck with the kitten's first occurrence removed (no reset), and the defuse
field is untouched. -/
theorem drawCard_kitten_noCharge (s : GameState) (u : String) (i : Nat)
    (js : Nat → Nat) (hne : s.deck u ≠ [])
    (hcard : (s.deck u).getD (i % (s.deck u).length) CardKind.cat =
      CardKind.explodingKitten)
    (hdef : (s.defuse u).getD 0 = 0) :
    (drawCard u i js s).2 = Outcome.playerLost ∧
    hget (drawCard u i js s).1.lose u = some ((hget s.lose u).getD 0 + 1) ∧
    (drawCard u i js s).1.win = s.win ∧
    (drawCard u i js s).1.deck u =
      (s.deck u).erase CardKind.explodingKitten ∧
    (drawCard u i js s).1.defuse = s.defuse := by
  have hlen : ¬ (s.deck u).length = 0 := by
    simpa [List.length_eq_zero] using hne
  simp only [drawCard, hlen, if_false, hcard, handleDrawnCard, hdef,
    lt_irrefl, if_false, updateUserStats, Bool.false_eq_true]
  exact ⟨by simp, hget_hset_self _ _ _, by simp, upd_self _ _ _, by simp⟩

/-- Claim C2, witness: the amended statement evaluated on the concrete
one-kitten scenario. -/
theorem drawCard_kitten_noCharge_witness :
    sC2.deck "alice" ≠ [] ∧
    (drawCard "alice" 0 js0 sC2).2 = Outcome.playerLost ∧
    hget (drawCard "alice" 0 js0 sC2).1.lose "alice" =
      some ((hget sC2.lose "alice").getD 0 + 1) :=
  ⟨by decide,
    (drawCard_kitten_noCharge sC2 "alice" 0 js0 (by decide) (by decide)
      (by decide)).1,
    (drawCard_kitten_noCharge sC2 "alice" 0 js0 (by decide) (by decide)
      (by decide)).2.1⟩

/-- Claim C3, counterexample: drawing two Defuse cards in a row yields a
defuse charge of 1, not 2 — the second draw overwrites the field with 1
instead of incrementing it. -/
theorem defuse_charges_do_not_accumulate :
    (drawCard "alice" 0 js0 sC3).2 = Outcome.defuseAcquired ∧
    (drawCard "alice" 0 js0 (drawCard "alice" 0 js0 sC3).1).2 =
      Outcome.defuseAcquired ∧
    (drawCard "alice" 0 js0 (drawCard "alice" 0 js0 sC3).1).1.defuse
      "alice" = some 1 := by
  decide

/-- Claim C3, amended: drawing a Defuse card sets the defuse charge to
exactly 1 regardless of its current value (charges do not accumulate), and
surviving an ExplodingKitten draw with a positive charge sets the charge to
exactly 0. -/
theorem defuse_sets_charge (s : GameState) (u : String) (i : Nat)
    (js : Nat → Nat) (hne : s.deck u ≠ []) :
    ((s.deck u).getD (i % (s.deck u).length) CardKind.cat =
        CardKind.defuse →
      (drawCard u i js s).2 = Outcome.defuseAcquired ∧
      (drawCard u i js s).1.defuse u = some 1) ∧
    ((s.deck u).getD (i % (s.deck u).length) CardKind.cat =
        CardKind.explodingKitten →
      (s.defuse u).getD 0 > 0 →
      (drawCard u i js s).2 = Outcome.defused ∧
      (drawCard u i js s).1.defuse u = some 0) := by
  have hlen : ¬ (s.deck u).length = 0 := by
    simpa [List.length_eq_zero] using hne
  constructor
  · intro hcard
    simp only [drawCard, hlen, if_false, hcard, handleDrawnCard]
    exact ⟨by simp, upd_self _ _ _⟩
  · intro hcard hpos
    simp only [drawCard, hlen, if_false, hcard, handleDrawnCard, hpos,
      if_true]
    exact ⟨by simp, upd_self _ _ _⟩

/-- Claim C3, witness: the amended statement evaluated on the double-defuse
deck and on the kitten-with-charge scenario. -/
theorem defuse_sets_charge_witness :
    (drawCard "alice" 0 js0 sC3).1.defuse "alice" = some 1 ∧
    (drawCard "alice" 0 js0 sC3b).2 = Outcome.defused ∧
    (drawCard "alice" 0 js0 sC3b).1.defuse "alice" = some 0 :=
  ⟨((defuse_sets_charge sC3 "alice" 0 js0 (by decide)).1 (by decide)).2,
    ((defuse_sets_charge sC3b "alice" 0 js0 (by decide)).2 (by decide)
      (by decide)).1,
    ((defuse_sets_charge sC3b "alice" 0 js0 (by decide)).2 (by decide)
      (by decide)).2⟩

/-- `startGame` on a user whose deck list is non-empty resumes: the state is
returned untouched together with the existing deck. -/
theorem startGame_of_nonempty (s : GameState) (u : String) (js : Nat → Nat)
    (h : (s.deck u).length > 0) :
    startGame u js s = (s, ⟨true, s.deck u⟩) := by
  simp [startGame, h]

/-- `startGame` on a user with no deck creates a shuffled deck and zeroes
both counters. -/
theorem startGame_of_empty (s : GameState) (u : String) (js : Nat → Nat)
    (h : s.deck u = []) :
    startGame u js s =
      ({ s with
          deck := upd s.deck u (goShuffle js canonicalDeck)
          win := hset s.win u 0
          lose := hset s.lose u 0 },
        ⟨false, goShuffle js canonicalDeck⟩) := by
  have hlen : ¬ ((s.deck u).length > 0) := by simp [h]
  simp only [startGame, hlen, if_false, initializeDeck, h,
    List.nil_append, upd_self, List.length_nil, gt_iff_lt,
    lt_self_iff_false]

/-- Claim C4, counterexample: losing to the Exploding Kitten does not
trigger the deck reset — the deck is left as the one-card remainder, not
replaced by a five-card shuffled composition. -/
theorem losing_leaves_deck_unreset :
    (drawCard "alice" 0 js0 sC4).2 = Outcome.playerLost ∧
    (drawCard "alice" 0 js0 sC4).1.deck "alice" = [CardKind.cat] := by
  decide

/-- Claim C4, amended: the deck-reset operation — triggered by drawing a
Shuffle card, but not by losing — replaces the user's deck with a
permutation of the canonical composition (for every stream of random
choices) and sets the defuse charge to zero. -/
theorem resetGame_perm_and_zero_defuse (s : GameState) (u : String)
    (js : Nat → Nat) :
    ((resetGame u js s).deck u).Perm canonicalDeck ∧
    (resetGame u js s).defuse u = some 0 ∧
    handleDrawnCard CardKind.shuffle u js s =
      (resetGame u js s, Outcome.deckReshuffled) := by
  refine ⟨?_, upd_self _ _ _, rfl⟩
  show (upd s.deck u ((goShuffle js canonicalDeck).take 5) u).Perm
    canonicalDeck
  rw [upd_self,
    List.take_of_length_le (le_of_eq (goShuffle_canonical_length js))]
  exact goShuffle_canonical_perm js

/-- Claim C5, counterexample: a user with accumulated stats (3 wins) whose
deck has been drained gets both counters re-zeroed by the next `startGame`
call, although the counters were present. -/
theorem startGame_rezeros_existing_stats :
    hget sC5.win "alice" = some 3 ∧
    hget sC5.lose "alice" = some 1 ∧
    hget (startGame "alice" js0 sC5).1.win "alice" = some 0 ∧
    hget (startGame "alice" js0 sC5).1.lose "alice" = some 0 := by
  decide

/-- Claim C5, amended: `startGame` zeroes both counters whenever it creates
a deck (the deck list is empty), even when counters already exist; a
resuming `startGame` leaves the whole state unchanged; and each terminal
outcome recorded through `updateUserStats` increments exactly one counter
by exactly 1, leaving the other hash untouched (counters are never
decremented by these operations). -/
theorem stats_zeroing_and_increment (s : GameState) (u : String)
    (js : Nat → Nat) :
    (s.deck u ≠ [] → (startGame u js s).1 = s) ∧
    (s.deck u = [] →
      hget (startGame u js s).1.win u = some 0 ∧
      hget (startGame u js s).1.lose u = some 0) ∧
    (hget (updateUserStats u true s).win u =
        some ((hget s.win u).getD 0 + 1) ∧
      (updateUserStats u true s).lose = s.lose) ∧
    (hget (updateUserStats u false s).lose u =
        some ((hget s.lose u).getD 0 + 1) ∧
      (updateUserStats u false s).win = s.win) := by
  refine ⟨?_, ?_, ⟨hget_hset_self _ _ _, by simp [updateUserStats]⟩,
    ⟨hget_hset_self _ _ _, by simp [updateUserStats]⟩⟩
  · intro h
    rw [startGame_of_nonempty s u js (List.length_pos.mpr h)]
  · intro h
    rw [startGame_of_empty s u js h]
    exact ⟨hget_hset_self _ _ _, hget_hset_self _ _ _⟩

/-- Claim C5, witness: the amended statement evaluated on the
drained-deck-with-stats scenario. -/
theorem stats_zeroing_and_increment_witness :
    sC5.deck "alice" = [] ∧
    hget (startGame "alice" js0 sC5).1.win "alice" = some 0 ∧
    hget (updateUserStats "alice" true sC5).win "alice" =
      some ((hget sC5.win "alice").getD 0 + 1) :=
  ⟨rfl, ((stats_zeroing_and_increment sC5 "alice" js0).2.1 rfl).1,
    (stats_zeroing_and_increment sC5 "alice" js0).2.2.1.1⟩

/-- Claim C6: calling `startGame` twice in a row with no intervening draw
returns the identical deck both times; the first call reports
`resumed = false` exactly when no deck existed, the second call always
reports `resumed = true` and leaves the state unchanged. -/
theorem startGame_idempotent (s : GameState) (u : String)
    (js1 js2 : Nat → Nat) :
    (startGame u js2 (startGame u js1 s).1).2.resumed = true ∧
    (startGame u js2 (startGame u js1 s).1).2.deck =
      (startGame u js1 s).2.deck ∧
    (startGame u js2 (startGame u js1 s).1).1 = (startGame u js1 s).1 ∧
    (s.deck u = [] → (startGame u js1 s).2.resumed = false) ∧
    (s.deck u ≠ [] → (startGame u js1 s).2.resumed = true) := by
  by_cases h : s.deck u = []
  · rw [startGame_of_empty s u js1 h]
    have hlen : (({ s with
        deck := upd s.deck u (goShuffle js1 canonicalDeck)
        win := hset s.win u 0
        lose := hset s.lose u 0 } : GameState).deck u).length > 0 := by
      show (upd s.deck u (goShuffle js1 canonicalDeck) u).length > 0
      rw [upd_self, goShuffle_canonical_length]
      norm_num
    rw [startGame_of_nonempty _ u js2 hlen]
    refine ⟨rfl, ?_, rfl, fun _ => rfl, fun hc => absurd h hc⟩
    show upd s.deck u (goShuffle js1 canonicalDeck) u =
      goShuffle js1 canonicalDeck
    exact upd_self _ _ _
  · have hl : (s.deck u).length > 0 := List.length_pos.mpr h
    rw [startGame_of_nonempty s u js1 hl]
    rw [startGame_of_nonempty s u js2 hl]
    exact ⟨rfl, rfl, rfl, fun hc => absurd hc h, fun _ => rfl⟩

/-- Claim C6, witness: the double-start scenario evaluated on the empty
server state. -/
theorem startGame_idempotent_witness :
    emptyState.deck "alice" = [] ∧
    (startGame "alice" js0 emptyState).2.resumed = false ∧
    (startGame "alice" js0 (startGame "alice" js0 emptyState).1).2.resumed
      = true ∧
    (startGame "alice" js0 (startGame "alice" js0 emptyState).1).2.deck =
      (startGame "alice" js0 emptyState).2.deck :=
  ⟨rfl,
    (startGame_idempotent emptyState "alice" js0 js0).2.2.2.1 rfl,
    (startGame_idempotent emptyState "alice" js0 js0).1,
    (startGame_idempotent emptyState "alice" js0 js0).2.1⟩

/-- Claim C7: evaluating the code at the failing input. A losing draw
mutates the losses counter, yet nothing is written to the registered
observer's socket (`sent` stays empty) and the observer set is untouched:
no leaderboard publish is triggered anywhere in the draw path —
`broadcastLeaderboard` is defined but never called. -/
theorem playerLost_mutates_stats_without_push :
    (drawCard "alice" 0 js0 sC7).2 = Outcome.playerLost ∧
    hget (drawCard "alice" 0 js0 sC7).1.lose "alice" = some 1 ∧
    (drawCard "alice" 0 js0 sC7).1.clients = [7] ∧
    (drawCard "alice" 0 js0 sC7).1.sent = [] := by
  decide

/-- Claim C8, counterexample: a username present only in the `lose` hash is
dropped from the snapshot entirely — the snapshot for a state knowing only
bob's loss is empty instead of containing (bob, 0, 1). -/
theorem lose_only_user_omitted :
    hget sC8.lose "bob" = some 1 ∧ fetchAllUserStats sC8 = [] := by
  decide

/-- Claim C8, amended: the leaderboard snapshot contains one
{username, wins, losses} record for every entry of the wins namespace, with
a losses value missing from the lose namespace reported as 0; a username
present only in the losses namespace is omitted from the snapshot. -/
theorem fetchAllUserStats_mem_iff (s : GameState) (u : String)
    (w l : Int) :
    (u, w, l) ∈ fetchAllUserStats s ↔
      ((u, w) ∈ s.win ∧ l = (hget s.lose u).getD 0) := by
  unfold fetchAllUserStats
  rw [List.mem_map]
  constructor
  · rintro ⟨⟨pu, pw⟩, hp, he⟩
    simp only [Prod.mk.injEq] at he
    obtain ⟨h1, h2, h3⟩ := he
    subst h1; subst h2
    exact ⟨hp, h3.symm⟩
  · rintro ⟨hm, hl⟩
    exact ⟨(u, w), hm, by rw [hl]⟩

/-- Claim C8, witness: the amended membership characterization evaluated on
a state knowing carol's wins and losses. -/
theorem fetchAllUserStats_mem_iff_witness :
    ("carol", (2 : Int), (4 : Int)) ∈ fetchAllUserStats sC8w :=
  (fetchAllUserStats_mem_iff sC8w "carol" 2 4).mpr ⟨by decide, by decide⟩

/-- The send loop of `broadcastLeaderboard` keeps exactly the observers
whose send succeeds, closes exactly the ones whose send fails, and writes
the snapshot to exactly the successful ones. -/
theorem broadcastLoop_spec (snapshot : List StatsRecord) (ok : Obs → Bool)
    (cs : List Obs) :
    broadcastLoop snapshot ok cs =
      (cs.filter ok, cs.filter (fun c => !(ok c)),
        (cs.filter ok).map (fun c => (c, snapshot))) := by
  induction cs with
  | nil => rfl
  | cons c rest ih =>
      by_cases hc : ok c = true
      · simp [broadcastLoop, List.filter_cons, hc, ih]
      · simp only [Bool.not_eq_true] at hc
        simp [broadcastLoop, List.filter_cons, hc, ih]

/-- Claim C9: `broadcastLeaderboard` delivers the snapshot to every
observer whose send succeeds (failures never abort or block the others),
unregisters and closes every observer whose send fails, and returns with
the game state (decks and both counter hashes) untouched, so a send
failure never propagates to the triggering caller. -/
theorem broadcastLeaderboard_isolates_failures (s : GameState)
    (ok : Obs → Bool) :
    (broadcastLeaderboard ok s).clients = s.clients.filter ok ∧
    (broadcastLeaderboard ok s).sent =
      s.sent ++ (s.clients.filter ok).map
        (fun c => (c, fetchAllUserStats s)) ∧
    (∀ o, o ∈ s.clients → ok o = true →
      o ∈ (broadcastLeaderboard ok s).clients ∧
      (o, fetchAllUserStats s) ∈ (broadcastLeaderboard ok s).sent) ∧
    (∀ o, o ∈ s.clients → ok o = false →
      o ∉ (broadcastLeaderboard ok s).clients ∧
      o ∈ (broadcastLeaderboard ok s).closed) ∧
    (broadcastLeaderboard ok s).win = s.win ∧
    (broadcastLeaderboard ok s).lose = s.lose ∧
    (broadcastLeaderboard ok s).deck = s.deck := by
  simp only [broadcastLeaderboard, broadcastLoop_spec]
  refine ⟨by simp, by simp, ?_, ?_, by simp, by simp, by simp⟩
  · intro o ho hok
    refine ⟨List.mem_filter.mpr ⟨ho, hok⟩, ?_⟩
    exact List.mem_append.mpr (Or.inr
      (List.mem_map.mpr ⟨o, List.mem_filter.mpr ⟨ho, hok⟩, rfl⟩))
  · intro o ho hok
    constructor
    · intro hmem
      exact absurd (List.mem_filter.mp hmem).2 (by simp [hok])
    · exact List.mem_append.mpr (Or.inr
        (List.mem_filter.mpr ⟨ho, by simp [hok]⟩))

/-- Claim C9, witness: broadcast with three observers of which the write to
observer 2 fails — 1 stays registered and receives the snapshot, 2 is
unregistered and closed. -/
theorem broadcastLeaderboard_isolates_failures_witness :
    (1 ∈ (broadcastLeaderboard ok9 sC9).clients ∧
      ((1 : Obs), fetchAllUserStats sC9) ∈
        (broadcastLeaderboard ok9 sC9).sent) ∧
    (2 ∉ (broadcastLeaderboard ok9 sC9).clients ∧
      2 ∈ (broadcastLeaderboard ok9 sC9).closed) :=
  ⟨(broadcastLeaderboard_isolates_failures sC9 ok9).2.2.1 1 (by decide)
      (by decide),
    (broadcastLeaderboard_isolates_failures sC9 ok9).2.2.2.1 2 (by decide)
      (by decide)⟩

/-- A draw whose outcome is not the reshuffle leaves every deck list
exactly as it was after the removal step (the kitten-loss, defuse and cat
branches never touch the deck). -/
theorem handleDrawnCard_deck (d : CardKind) (u : String) (js : Nat → Nat)
    (s : GameState)
    (hd : (handleDrawnCard d u js s).2 ≠ Outcome.deckReshuffled) :
    (handleDrawnCard d u js s).1.deck = s.deck := by
  cases d with
  | cat => rfl
  | defuse => rfl
  | shuffle => exact absurd rfl hd
  | explodingKitten =>
      by_cases hc : (s.defuse u).getD 0 > 0
      · simp [handleDrawnCard, hc]
      · simp [handleDrawnCard, hc, updateUserStats]

/-- Claim C10: on a non-empty deck, the drawn card is taken from the stored
list at the selected position, exactly one card is removed, the removed
card is the first occurrence of the selected kind (so the result is
determined by the kind alone), and the remaining cards keep their relative
order (the new deck is a sublist: the old list split around that first
occurrence). -/
theorem drawCard_removes_first_occurrence (s : GameState) (u : String)
    (i : Nat) (js : Nat → Nat) (h : s.deck u ≠ []) :
    (s.deck u).getD (i % (s.deck u).length) CardKind.cat ∈ s.deck u ∧
    ((drawCard u i js s).2 ≠ Outcome.deckReshuffled →
      (drawCard u i js s).1.deck u =
        (s.deck u).erase
          ((s.deck u).getD (i % (s.deck u).length) CardKind.cat)) ∧
    ((s.deck u).erase
        ((s.deck u).getD (i % (s.deck u).length) CardKind.cat)).length + 1
      = (s.deck u).length ∧
    ((s.deck u).erase
        ((s.deck u).getD (i % (s.deck u).length) CardKind.cat)).Sublist
      (s.deck u) ∧
    ∃ l₁ l₂,
      (s.deck u).getD (i % (s.deck u).length) CardKind.cat ∉ l₁ ∧
      s.deck u =
        l₁ ++ (s.deck u).getD (i % (s.deck u).length) CardKind.cat :: l₂ ∧
      (s.deck u).erase
        ((s.deck u).getD (i % (s.deck u).length) CardKind.cat) =
        l₁ ++ l₂ := by
  have hpos : 0 < (s.deck u).length := List.length_pos.mpr h
  have hidx : i % (s.deck u).length < (s.deck u).length :=
    Nat.mod_lt _ hpos
  have hmem : (s.deck u).getD (i % (s.deck u).length) CardKind.cat ∈
      s.deck u := by
    rw [List.getD_eq_getElem _ _ hidx]
    exact List.getElem_mem hidx
  have hlen0 : ¬ (s.deck u).length = 0 := by omega
  have heq : drawCard u i js s =
      handleDrawnCard ((s.deck u).getD (i % (s.deck u).length) CardKind.cat)
        u js
        { s with
            deck := upd s.deck u ((s.deck u).erase
              ((s.deck u).getD (i % (s.deck u).length) CardKind.cat)) } := by
    simp only [drawCard, hlen0, if_false]
  refine ⟨hmem, ?_, ?_, List.erase_sublist _ _, List.exists_erase_eq hmem⟩
  · intro hout
    rw [heq] at hout ⊢
    rw [handleDrawnCard_deck _ _ _ _ hout]
    exact upd_self _ _ _
  · have hle := List.length_erase
      ((s.deck u).getD (i % (s.deck u).length) CardKind.cat) (s.deck u)
    simp only [hmem, if_true] at hle
    omega

/-- Claim C10, witness: drawing the duplicate Cat kind at position 2
removes the first Cat of the stored list, keeping the rest in order. -/
theorem drawCard_removes_first_occurrence_witness :
    sC10.deck "alice" ≠ [] ∧
    (drawCard "alice" 2 js0 sC10).1.deck "alice" =
      [CardKind.explodingKitten, CardKind.cat] := by
  refine ⟨by decide, ?_⟩
  have hr := (drawCard_removes_first_occurrence sC10 "alice" 2 js0
    (by decide)).2.1 (by decide)
  rw [hr]
  decide

/-- In the reduced `main2.go` variant the kitten draw always loses and does
run the reset, but the reset writes the canonical deck back unshuffled, in
its literal order, and no counter hash and no defuse field is touched. -/
theorem main2_kitten_resets_and_skips_stats (s : GameState) (u : String) :
    main2_handleDrawnCard CardKind.explodingKitten u s =
      (main2_resetGame u s, Outcome.playerLost) ∧
    (main2_resetGame u s).deck u = canonicalDeck ∧
    (main2_resetGame u s).win = s.win ∧
    (main2_resetGame u s).lose = s.lose ∧
    (main2_resetGame u s).defuse = s.defuse :=
  ⟨rfl, upd_self _ _ _, rfl, rfl, rfl⟩
